import Mathlib

/-!
Shallow embedding of the funnelctl core: the serving-configuration data
model (src/core/types.rs), the conflict/patch engine (src/core/patch.rs),
path and port validation (src/core/validation.rs), the TCP transport retry
(src/net/localapi_transport.rs) and the apply orchestrator commit loop
(src/backend/localapi/mod.rs).

Rust HashMaps are modeled as association lists; the list order models the
(unspecified) hash-map iteration order, so a universally quantified theorem
over all lists covers every possible iteration order, and a concrete list
exhibits one possible execution.  Rust machine strings are Lean Strings;
`starts_with`/`ends_with` are modeled on the character lists (UTF-8 safe
for the properties used here).
-/

/-- JSON values (serde_json::Value).  Every claim treats numeric payloads
opaquely, so an Int component suffices for numbers. -/
inductive JVal where
  | null : JVal
  | bool : Bool → JVal
  | num : Int → JVal
  | str : String → JVal
  | arr : List JVal → JVal
  | obj : List (String × JVal) → JVal

/-- Lookup of the first binding of a key (models HashMap::get). -/
def lookupA {α : Type} : List (String × α) → String → Option α
  | [], _ => none
  | (k, v) :: rest, key => if k = key then some v else lookupA rest key

/-- Insert or replace a binding (models HashMap::insert / entry insertion). -/
def insertA {α : Type} : List (String × α) → String → α → List (String × α)
  | [], key, v => [(key, v)]
  | (k, w) :: rest, key, v =>
    if k = key then (key, v) :: rest else (k, w) :: insertA rest key v

/-- Remove the binding of a key (models HashMap::remove). -/
def eraseA {α : Type} : List (String × α) → String → List (String × α)
  | [], _ => []
  | (k, w) :: rest, key => if k = key then rest else (k, w) :: eraseA rest key

/-- Rust str::starts_with for a string pattern: character-prefix test. -/
def strStarts (s p : String) : Bool := p.data.isPrefixOf s.data

/-- Rust str::ends_with for a string pattern: character-suffix test. -/
def strEnds (s p : String) : Bool := p.data.isSuffixOf s.data

/-- HttpHandler (src/core/types.rs): tagged handler variant plus the
flattened bag of unrecognized fields. -/
structure HttpHandler where
  proxy : Option String
  path : Option String
  text : Option String
  unknown_fields : List (String × JVal)

/-- HttpHandler::new_proxy. -/
def HttpHandler.new_proxy (target : String) : HttpHandler :=
  { proxy := some target, path := none, text := none, unknown_fields := [] }

/-- HttpHandler::get_proxy_target. -/
def HttpHandler.get_proxy_target (h : HttpHandler) : Option String := h.proxy

/-- WebServerConfig (src/core/types.rs). -/
structure WebServerConfig where
  handlers : Option (List (String × HttpHandler))
  unknown_fields : List (String × JVal)

/-- WebServerConfig::new. -/
def WebServerConfig.new : WebServerConfig := { handlers := none, unknown_fields := [] }

/-- ServeConfig (src/core/types.rs): the top-level serving configuration.
`tcp` keys are u16 ports (modeled as Nat), `foreground` values are opaque
JSON documents exactly as in the Rust struct. -/
structure ServeConfig where
  tcp : Option (List (Nat × JVal))
  web : Option (List (String × WebServerConfig))
  allow_funnel : Option (List (String × Bool))
  foreground : Option (List (String × JVal))
  unknown_fields : List (String × JVal)

/-- ServeConfig::new. -/
def ServeConfig.new : ServeConfig :=
  { tcp := none, web := none, allow_funnel := none, foreground := none, unknown_fields := [] }

/-- ServeConfig::get_handlers. -/
def ServeConfig.get_handlers (c : ServeConfig) (host_port : String) :
    Option (List (String × HttpHandler)) :=
  match c.web with
  | none => none
  | some web =>
    match lookupA web host_port with
    | none => none
    | some wc => wc.handlers

/-- ServeConfig::is_funnel_enabled: defaults to false when absent. -/
def ServeConfig.is_funnel_enabled (c : ServeConfig) (host_port : String) : Bool :=
  match c.allow_funnel with
  | none => false
  | some m => (lookupA m host_port).getD false

/-- PathMapping (src/core/types.rs). -/
structure PathMapping where
  path : String
  target : String
  funnel_enabled : Bool

/-- PathMapping::is_prefix_of: a trailing slash indicates a prefix mount;
a path not ending in a slash is never a prefix mount. -/
def PathMapping.is_prefix_of (m : PathMapping) (other : String) : Bool :=
  if !(strEnds m.path "/") then false
  else strStarts other m.path

/-- Conflict (src/core/patch.rs). -/
inductive Conflict where
  | exactPathDifferentTarget (path existing_target new_target : String)
  | capturedByExisting (new_path existing_path existing_target : String)
  | newCapturesExisting (new_path captured_path captured_target : String)
deriving DecidableEq

/-- describe_handler_target (src/core/patch.rs). -/
def describe_handler_target (h : HttpHandler) : String :=
  match h.get_proxy_target with
  | some proxy => proxy
  | none =>
    match h.path with
    | some p => "path handler " ++ p
    | none => if h.text.isSome then "text handler" else "non-proxy handler"

/-- The scanning for-loop inside detect_conflicts, over the extracted
PathMappings in iteration order, with the source's early returns. -/
def scanConflicts (new_path new_target : String) (funnel_enabled existing_funnel : Bool) :
    List PathMapping → Except Conflict (Option Bool)
  | [] => .ok none
  | existing :: rest =>
    if existing.path = new_path then
      if existing.target = new_target then
        if existing_funnel && funnel_enabled then .ok (some true) else .ok none
      else .error (.exactPathDifferentTarget new_path existing.target new_target)
    else if existing.is_prefix_of new_path then
      .error (.capturedByExisting new_path existing.path existing.target)
    else if (PathMapping.mk new_path new_target funnel_enabled).is_prefix_of existing.path then
      .error (.newCapturesExisting new_path existing.path existing.target)
    else scanConflicts new_path new_target funnel_enabled existing_funnel rest

/-- detect_conflicts (src/core/patch.rs). -/
def detect_conflicts (config : ServeConfig) (host_port new_path new_target : String)
    (funnel_enabled : Bool) : Except Conflict (Option Bool) :=
  match config.get_handlers host_port with
  | none => .ok none
  | some handlers =>
    let existing_funnel := config.is_funnel_enabled host_port
    scanConflicts new_path new_target funnel_enabled existing_funnel
      (handlers.map (fun kv => PathMapping.mk kv.1 (describe_handler_target kv.2) existing_funnel))

theorem is_prefix_of_iff (m : PathMapping) (other : String) :
    m.is_prefix_of other = true ↔ (strEnds m.path "/" = true ∧ strStarts other m.path = true) := by
  unfold PathMapping.is_prefix_of
  cases h : strEnds m.path "/" <;> simp [h]

theorem scanConflicts_captured (np nt : String) (fe ef : Bool) :
    ∀ (l : List PathMapping) (p e t : String),
      scanConflicts np nt fe ef l = .error (.capturedByExisting p e t) →
      p = np ∧ strEnds e "/" = true ∧ strStarts np e = true := by
  intro l
  induction l with
  | nil => intro p e t h; simp [scanConflicts] at h
  | cons existing rest ih =>
    intro p e t h
    by_cases h1 : existing.path = np
    · by_cases h2 : existing.target = nt
      · cases h3 : (ef && fe) <;> simp [scanConflicts, h1, h2, h3] at h
      · simp [scanConflicts, h1, h2] at h
    · cases h4 : existing.is_prefix_of np with
      | true =>
        simp [scanConflicts, h1, h4] at h
        obtain ⟨hp, he, _⟩ := h
        have hs := (is_prefix_of_iff existing np).mp h4
        exact ⟨hp.symm, he ▸ hs.1, he ▸ hs.2⟩
      | false =>
        cases h5 : (PathMapping.mk np nt fe).is_prefix_of existing.path with
        | true => simp [scanConflicts, h1, h4, h5] at h
        | false =>
          have h' : scanConflicts np nt fe ef rest = .error (.capturedByExisting p e t) := by
            simpa [scanConflicts, h1, h4, h5] using h
          exact ih p e t h'

theorem scanConflicts_newcap (np nt : String) (fe ef : Bool) :
    ∀ (l : List PathMapping) (p e t : String),
      scanConflicts np nt fe ef l = .error (.newCapturesExisting p e t) →
      p = np ∧ strEnds np "/" = true ∧ strStarts e np = true := by
  intro l
  induction l with
  | nil => intro p e t h; simp [scanConflicts] at h
  | cons existing rest ih =>
    intro p e t h
    by_cases h1 : existing.path = np
    · by_cases h2 : existing.target = nt
      · cases h3 : (ef && fe) <;> simp [scanConflicts, h1, h2, h3] at h
      · simp [scanConflicts, h1, h2] at h
    · cases h4 : existing.is_prefix_of np with
      | true => simp [scanConflicts, h1, h4] at h
      | false =>
        cases h5 : (PathMapping.mk np nt fe).is_prefix_of existing.path with
        | true =>
          simp [scanConflicts, h1, h4, h5] at h
          obtain ⟨hp, he, _⟩ := h
          have hs := (is_prefix_of_iff (PathMapping.mk np nt fe) existing.path).mp h5
          exact ⟨hp.symm, hs.1, he ▸ hs.2⟩
        | false =>
          have h' : scanConflicts np nt fe ef rest = .error (.newCapturesExisting p e t) := by
            simpa [scanConflicts, h1, h4, h5] using h
          exact ih p e t h'

/-- Claim C1: detect_conflicts reports "captured by existing prefix" only
when the existing path ends with a slash and the new path starts with it as
a character prefix, and "new prefix captures existing" only when the new
path ends with a slash and the existing path starts with it; a path mapping
whose path does not end in a slash is never treated as a prefix of another
path (in particular a mapping at /api never prefix-matches /api/v1). -/
theorem c1_prefix_semantics :
    (∀ (cfg : ServeConfig) (hp np nt : String) (fe : Bool) (p e t : String),
      detect_conflicts cfg hp np nt fe = .error (.capturedByExisting p e t) →
      p = np ∧ strEnds e "/" = true ∧ strStarts np e = true) ∧
    (∀ (cfg : ServeConfig) (hp np nt : String) (fe : Bool) (p e t : String),
      detect_conflicts cfg hp np nt fe = .error (.newCapturesExisting p e t) →
      p = np ∧ strEnds np "/" = true ∧ strStarts e np = true) ∧
    (∀ (m : PathMapping) (other : String),
      strEnds m.path "/" = false → m.is_prefix_of other = false) ∧
    (∀ (t : String) (f : Bool), (PathMapping.mk "/api" t f).is_prefix_of "/api/v1" = false) := by
  refine ⟨?_, ?_, ?_, ?_⟩
  · intro cfg hp np nt fe p e t h
    unfold detect_conflicts at h
    cases hg : cfg.get_handlers hp with
    | none => rw [hg] at h; simp at h
    | some hs =>
      rw [hg] at h
      exact scanConflicts_captured np nt fe (cfg.is_funnel_enabled hp) _ p e t h
  · intro cfg hp np nt fe p e t h
    unfold detect_conflicts at h
    cases hg : cfg.get_handlers hp with
    | none => rw [hg] at h; simp at h
    | some hs =>
      rw [hg] at h
      exact scanConflicts_newcap np nt fe (cfg.is_funnel_enabled hp) _ p e t h
  · intro m other hend
    unfold PathMapping.is_prefix_of
    simp [hend]
  · intro t f
    rfl

/-- Concrete serving configuration exhibiting a prefix-capture conflict. -/
def c1cfg : ServeConfig :=
  { tcp := none
    web := some [("example.com:443",
      { handlers := some [("/api/", HttpHandler.new_proxy "A")], unknown_fields := [] })]
    allow_funnel := none
    foreground := none
    unknown_fields := [] }

theorem c1_witness :
    (detect_conflicts c1cfg "example.com:443" "/api/v1" "B" false =
      .error (.capturedByExisting "/api/v1" "/api/" "A")) ∧
    ("/api/v1" = "/api/v1" ∧ strEnds "/api/" "/" = true ∧ strStarts "/api/v1" "/api/" = true) :=
  ⟨rfl, c1_prefix_semantics.1 c1cfg "example.com:443" "/api/v1" "B" false "/api/v1" "/api/" "A" rfl⟩

/-- Claim C2 (amended): when the existing handler with exactly the new
path is the first handler examined in iteration order (in particular when
it is the only handler at hostPort), detect_conflicts returns the
idempotent-match outcome iff the existing target equals the new target and
both the existing and new funnel flags are true; with equal targets but
not both flags true it reports no conflict; with a different target it
reports the exact-path-different-target conflict.  (As originally stated,
over every configuration, the claim fails: an earlier handler in iteration
order can raise a prefix conflict before the exact match is examined, see
the counterexample.) -/
theorem c2_exact_match_first (cfg : ServeConfig) (hp np nt : String) (fe : Bool)
    (h : HttpHandler) (rest : List (String × HttpHandler))
    (hh : cfg.get_handlers hp = some ((np, h) :: rest)) :
    (detect_conflicts cfg hp np nt fe = .ok (some true) ↔
      (describe_handler_target h = nt ∧ cfg.is_funnel_enabled hp = true ∧ fe = true)) ∧
    (describe_handler_target h = nt → (cfg.is_funnel_enabled hp && fe) = false →
      detect_conflicts cfg hp np nt fe = .ok none) ∧
    (describe_handler_target h ≠ nt →
      detect_conflicts cfg hp np nt fe =
        .error (.exactPathDifferentTarget np (describe_handler_target h) nt)) := by
  unfold detect_conflicts
  rw [hh]
  by_cases hd : describe_handler_target h = nt <;>
    cases hE : cfg.is_funnel_enabled hp <;> cases fe <;>
      simp [scanConflicts, hd, hE]

/-- Serving configuration with two handlers at one host:port: a root
prefix mount and an exact-path handler with the same target as a proposed
re-registration. -/
def c2cfg : ServeConfig :=
  { tcp := none
    web := some [("example.com:443",
      { handlers := some [("/", HttpHandler.new_proxy "T"), ("/api", HttpHandler.new_proxy "T")],
        unknown_fields := [] })]
    allow_funnel := some [("example.com:443", true)]
    foreground := none
    unknown_fields := [] }

theorem c2_counterexample :
    c2cfg.get_handlers "example.com:443" =
      some [("/", HttpHandler.new_proxy "T"), ("/api", HttpHandler.new_proxy "T")] ∧
    describe_handler_target (HttpHandler.new_proxy "T") = "T" ∧
    c2cfg.is_funnel_enabled "example.com:443" = true ∧
    detect_conflicts c2cfg "example.com:443" "/api" "T" true =
      .error (.capturedByExisting "/api" "/" "T") :=
  ⟨rfl, rfl, rfl, rfl⟩

/-- Single-handler serving configuration for the C2 witness. -/
def c2wcfg : ServeConfig :=
  { tcp := none
    web := some [("example.com:443",
      { handlers := some [("/api", HttpHandler.new_proxy "T")], unknown_fields := [] })]
    allow_funnel := some [("example.com:443", true)]
    foreground := none
    unknown_fields := [] }

theorem c2_witness :
    c2wcfg.get_handlers "example.com:443" = some [("/api", HttpHandler.new_proxy "T")] ∧
    ((detect_conflicts c2wcfg "example.com:443" "/api" "T" true = .ok (some true)) ↔
      (describe_handler_target (HttpHandler.new_proxy "T") = "T" ∧
        c2wcfg.is_funnel_enabled "example.com:443" = true ∧ true = true)) :=
  ⟨rfl, (c2_exact_match_first c2wcfg "example.com:443" "/api" "T" true
      (HttpHandler.new_proxy "T") [] rfl).1⟩

/-- Error taxonomy (src/error.rs), restricted to the kinds the claims
mention; message payloads are abbreviated. -/
inductive FunnelErrorM where
  | invalidArgument (msg : String)
  | unreachable
  | permission
  | prerequisites (context : String)
  | conflictErr (context : String)
  | applyFailed (context : String)
  | versionTooOld (context : String)
  | targetPortInaccessible
  | other (msg : String)
deriving DecidableEq

/-- validate_port (src/core/validation.rs). -/
def validate_port (port : Nat) : Except FunnelErrorM Unit :=
  if port = 0 then .error (.invalidArgument "port must be between 1 and 65535")
  else .ok ()

/-- ALLOWED_PORTS (src/core/validation.rs). -/
def ALLOWED_PORTS : List Nat := [443, 8443, 10000]

/-- validate_https_port (src/core/validation.rs). -/
def validate_https_port (port : Nat) : Except FunnelErrorM Unit :=
  if !(ALLOWED_PORTS.contains port) then
    .error (.invalidArgument "HTTPS port must be one of 443 8443 10000")
  else .ok ()

/-- The validation stage at the top of OpenCommand::run
(src/cmd/open.rs): validate_port then validate_https_port run first, and
everything after them, including bind resolution and every network
operation, is abstracted as `rest`. -/
def openRunValidationStage {α : Type} (port https_port : Nat)
    (rest : Unit → Except FunnelErrorM α) : Except FunnelErrorM α :=
  match validate_port port with
  | .error e => .error e
  | .ok _ =>
    match validate_https_port https_port with
    | .error e => .error e
    | .ok _ => rest ()

/-- Claim C10: the open flow restricts the public HTTPS port to exactly
the set 443, 8443, 10000: validation succeeds for every port in the set,
and for every other port OpenCommand::run stops with an invalid-argument
error before any network operation (its result does not depend on
anything after the validation stage). -/
theorem c10_https_port_allowlist :
    (∀ port : Nat, port ∈ ALLOWED_PORTS → validate_https_port port = .ok ()) ∧
    (∀ port : Nat, port ∉ ALLOWED_PORTS →
      validate_https_port port =
        .error (.invalidArgument "HTTPS port must be one of 443 8443 10000")) ∧
    (∀ (α : Type) (port https_port : Nat) (rest rest' : Unit → Except FunnelErrorM α),
      https_port ∉ ALLOWED_PORTS → port ≠ 0 →
      openRunValidationStage port https_port rest =
        .error (.invalidArgument "HTTPS port must be one of 443 8443 10000") ∧
      openRunValidationStage port https_port rest =
        openRunValidationStage port https_port rest') := by
  refine ⟨?_, ?_, ?_⟩
  · intro port hmem
    simp [validate_https_port, hmem]
  · intro port hmem
    simp [validate_https_port, hmem]
  · intro α port https_port rest rest' hmem hport
    have hv : validate_https_port https_port =
        .error (.invalidArgument "HTTPS port must be one of 443 8443 10000") := by
      simp [validate_https_port, hmem]
    have hp : validate_port port = .ok () := by
      simp [validate_port, hport]
    constructor <;> simp [openRunValidationStage, hp, hv]

theorem c10_witness :
    (443 ∈ ALLOWED_PORTS ∧ validate_https_port 443 = .ok ()) ∧
    (8080 ∉ ALLOWED_PORTS ∧
      openRunValidationStage 3000 8080 (fun _ => .ok 7) =
        .error (.invalidArgument "HTTPS port must be one of 443 8443 10000")) :=
  ⟨⟨by decide, c10_https_port_allowlist.1 443 (by decide)⟩,
   ⟨by decide,
    (c10_https_port_allowlist.2.2 Nat 3000 8080 (fun _ => .ok 7)
      (fun _ => .error .permission) (by decide) (by decide)).1⟩⟩

/-- UTF-8 byte count of a single character. -/
def charBytes (c : Char) : Nat :=
  if c.toNat < 0x80 then 1
  else if c.toNat < 0x800 then 2
  else if c.toNat < 0x10000 then 3
  else 4

/-- Rust String::len: byte length of the UTF-8 encoding. -/
def utf8Len (s : String) : Nat := s.data.foldl (fun n c => n + charBytes c) 0

/-- ValidationWarning (src/core/validation.rs); the TTL variant carries
its duration in seconds. -/
inductive ValidationWarning where
  | pathTooShort (path : String) (length : Nat)
  | ttlTooShort (seconds : Nat)
deriving DecidableEq

/-- PathValidationResult (src/core/validation.rs). -/
structure PathValidationResult where
  normalized_path : String
  warnings : List ValidationWarning
deriving DecidableEq

/-- The character loop of normalize_slashes, with its prev_was_slash
state. -/
def normChars : List Char → Bool → List Char
  | [], _ => []
  | c :: rest, prevSlash =>
    if c = '/' then
      if prevSlash then normChars rest true else c :: normChars rest true
    else c :: normChars rest false

/-- normalize_slashes (src/core/validation.rs). -/
def normalize_slashes (p : String) : String := ⟨normChars p.data false⟩

/-- Rust str::split on a slash: the segments between slashes, empty
segments kept. -/
def splitOnSlash : List Char → List (List Char)
  | [] => [[]]
  | c :: rest =>
    if c = '/' then [] :: splitOnSlash rest
    else
      match splitOnSlash rest with
      | [] => [[c]]
      | s :: ss => (c :: s) :: ss

/-- The trailing-slash-preserving normalization of validate_path;
`path.len() > 1` is the UTF-8 byte length as in Rust. -/
def normalizedPathOf (p : String) : String :=
  let has_trailing := strEnds p "/" && decide (1 < utf8Len p)
  let normalized := normalize_slashes p
  if has_trailing && !(strEnds normalized "/") then normalized ++ "/" else normalized

/-- validate_path (src/core/validation.rs).  Bytes below 0x20 in the
UTF-8 encoding are exactly the characters below 0x20 (continuation bytes
are at least 0x80), so the control-byte scan is a character scan; the
length checks use the UTF-8 byte length, as Rust String::len does. -/
def validate_path (p : String) : Except FunnelErrorM PathValidationResult :=
  if !(strStarts p "/") then
    .error (.invalidArgument "path must start with a slash")
  else if p.data.any (fun c => c.toNat < 0x20) then
    .error (.invalidArgument "path contains control characters")
  else if (splitOnSlash p.data).any (fun s => s == ['.', '.']) then
    .error (.invalidArgument "path cannot contain dot-dot segments")
  else
    let np := normalizedPathOf p
    .ok { normalized_path := np
          warnings :=
            if utf8Len np < 8 then [.pathTooShort np (utf8Len np)] else [] }

/-- Claim C8 (amended): for every input starting with a slash,
validate_path collapses runs of slashes to one while preserving a trailing
slash, rejects any dot-dot segment and any byte below 0x20 with an
invalid-argument error, and accepts a path whose normalized form is
shorter than 8 UTF-8 bytes with a warning, not an error.  (The original
claim measured the short-path threshold in characters; the code measures
Rust String::len, i.e. UTF-8 bytes, see the counterexample.) -/
theorem c8_validate_path :
    (validate_path "//api///v1//users" =
      .ok { normalized_path := "/api/v1/users", warnings := [] }) ∧
    (validate_path "/api/v1///" =
      .ok { normalized_path := "/api/v1/", warnings := [] }) ∧
    (∀ p : String, strStarts p "/" = true →
      (splitOnSlash p.data).any (fun s => s == ['.', '.']) = true →
      ∃ m, validate_path p = .error (.invalidArgument m)) ∧
    (∀ p : String, strStarts p "/" = true →
      p.data.any (fun c => c.toNat < 0x20) = true →
      validate_path p = .error (.invalidArgument "path contains control characters")) ∧
    (∀ p : String, strStarts p "/" = true →
      p.data.any (fun c => c.toNat < 0x20) = false →
      (splitOnSlash p.data).any (fun s => s == ['.', '.']) = false →
      utf8Len (normalizedPathOf p) < 8 →
      validate_path p =
        .ok { normalized_path := normalizedPathOf p
              warnings := [.pathTooShort (normalizedPathOf p)
                            (utf8Len (normalizedPathOf p))] }) := by
  refine ⟨rfl, rfl, ?_, ?_, ?_⟩
  · intro p hstart hdd
    by_cases hcc : p.data.any (fun c => c.toNat < 0x20) = true
    · exact ⟨"path contains control characters", by simp [validate_path, hstart, hcc]⟩
    · exact ⟨"path cannot contain dot-dot segments",
        by simp [validate_path, hstart, hdd, hcc]⟩
  · intro p hstart hcc
    simp [validate_path, hstart, hcc]
  · intro p hstart hcc hdd hlen
    simp [validate_path, hstart, hcc, hdd, hlen]

theorem c8_counterexample :
    validate_path "/aéééb" = .ok { normalized_path := "/aéééb", warnings := [] } ∧
    "/aéééb".length < 8 ∧
    utf8Len "/aéééb" = 9 :=
  ⟨rfl, by decide, rfl⟩

theorem c8_witness :
    (strStarts "/ab" "/" = true ∧
      "/ab".data.any (fun c => c.toNat < 0x20) = false ∧
      (splitOnSlash "/ab".data).any (fun s => s == ['.', '.']) = false ∧
      utf8Len (normalizedPathOf "/ab") < 8) ∧
    validate_path "/ab" =
      .ok { normalized_path := normalizedPathOf "/ab"
            warnings := [.pathTooShort (normalizedPathOf "/ab")
                          (utf8Len (normalizedPathOf "/ab"))] } :=
  ⟨⟨rfl, rfl, rfl, by decide⟩,
    c8_validate_path.2.2.2.2 "/ab" rfl rfl rfl (by decide)⟩

/-- Transport-level errors (src/net/localapi_transport.rs), restricted to
the kinds the claims mention. -/
inductive LocalApiErrorM where
  | passwordPermissions (mode : Nat)
  | emptyPasswordFile
  | httpStatus (status : Nat)
  | missingSessionId
deriving DecidableEq

/-- The designated secret file as the transport sees it: its permission
bits (already masked with 0o777, as in the source) and its text
contents. -/
structure FileState where
  mode : Nat
  contents : String

/-- trim_end_matches over the CR and LF character set. -/
def trimNewlines (s : String) : String :=
  ⟨(s.data.reverse.dropWhile (fun c => c == '\r' || c == '\n')).reverse⟩

/-- read_password_file (src/net/localapi_transport.rs): mode must be
exactly 0600, trailing newline characters are trimmed, and an empty
result is rejected. -/
def read_password_file (f : FileState) : Except LocalApiErrorM String :=
  if f.mode ≠ 0o600 then .error (.passwordPermissions f.mode)
  else
    let password := trimNewlines f.contents
    if password = "" then .error .emptyPasswordFile
    else .ok password

/-- TcpAuthTransport::send (src/net/localapi_transport.rs): one request;
on a 401 response the secret file is re-read once and the request retried
exactly once with the refreshed secret, and the retry response is
returned as is.  `respond i pw` is the status the server returns to the
i-th send_once call carrying password `pw`; the result pairs the final
response status with the number of password-file re-reads performed. -/
def tcpAuthSend (respond : Nat → String → Nat) (f : FileState) (password : String) :
    Except LocalApiErrorM (Nat × Nat) :=
  let r0 := respond 0 password
  if r0 = 401 then
    match read_password_file f with
    | .error e => .error e
    | .ok refreshed => .ok (respond 1 refreshed, 1)
  else .ok (r0, 0)

/-- ensure_status_ok (src/backend/localapi/client.rs): a 200 response is
success, everything else becomes a typed status error. -/
def ensure_status_ok (status : Nat) : Except LocalApiErrorM Nat :=
  if status = 200 then .ok status else .error (.httpStatus status)

/-- Claim C5: on an unauthorized (401) response the secret file is re-read
exactly once and the request retried exactly once with the refreshed
secret; a second 401 is terminal (returned with still just one re-read,
and surfaced as a status error by the client); a 401 followed by a 200
yields overall success with exactly one credential re-read; a non-401
response triggers no re-read at all. -/
theorem c5_unauthorized_retry (respond : Nat → String → Nat) (f : FileState)
    (p0 p1 : String) (hread : read_password_file f = .ok p1) :
    (respond 0 p0 = 401 → respond 1 p1 = 200 →
      tcpAuthSend respond f p0 = .ok (200, 1) ∧ ensure_status_ok 200 = .ok 200) ∧
    (respond 0 p0 = 401 → respond 1 p1 = 401 →
      tcpAuthSend respond f p0 = .ok (401, 1) ∧
      ensure_status_ok 401 = .error (.httpStatus 401)) ∧
    (respond 0 p0 ≠ 401 →
      tcpAuthSend respond f p0 = .ok (respond 0 p0, 0)) := by
  refine ⟨?_, ?_, ?_⟩
  · intro h0 h1
    exact ⟨by simp [tcpAuthSend, h0, hread, h1], rfl⟩
  · intro h0 h1
    exact ⟨by simp [tcpAuthSend, h0, hread, h1], rfl⟩
  · intro h0
    simp [tcpAuthSend, h0]

theorem c5_witness :
    (read_password_file { mode := 0o600, contents := "secret\n" } = .ok "secret") ∧
    (tcpAuthSend (fun i _ => if i = 0 then 401 else 200)
        { mode := 0o600, contents := "secret\n" } "stale" = .ok (200, 1) ∧
      ensure_status_ok 200 = .ok 200) :=
  ⟨rfl,
    (c5_unauthorized_retry (fun i _ => if i = 0 then 401 else 200)
      { mode := 0o600, contents := "secret\n" } "stale" "secret" rfl).1 rfl rfl⟩

/-- Recognized top-level keys of ServeConfig under serde PascalCase
renaming. -/
def knownServeKeys : List String := ["Tcp", "Web", "AllowFunnel", "Foreground"]

/-- serde parse of an Option String struct field from its looked-up JSON
value: absent or null is none, a string is some, anything else fails. -/
def parseOptStrVal : Option JVal → Option (Option String)
  | none => some none
  | some .null => some none
  | some (.str s) => some (some s)
  | some _ => none

/-- Parse every value of a JSON object into an association list, failing
when any single value fails (serde map deserialization). -/
def parsePairs {β : Type} (f : JVal → Option β) :
    List (String × JVal) → Option (List (String × β))
  | [] => some []
  | (k, v) :: rest =>
    match f v, parsePairs f rest with
    | some b, some bs => some ((k, b) :: bs)
    | _, _ => none

/-- serde parse of one Tcp map entry: the JSON key must be a decimal u16
port; the value is kept opaque. -/
def parseTcpEntry (kv : String × JVal) : Option (Nat × JVal) :=
  match kv.1.toNat? with
  | some n => if n ≤ 65535 then some (n, kv.2) else none
  | none => none

/-- serde parse of the optional Tcp field value. -/
def parseTcpVal : Option JVal → Option (Option (List (Nat × JVal)))
  | none => some none
  | some .null => some none
  | some (.obj kvs) => (kvs.mapM parseTcpEntry).map some
  | some _ => none

/-- serde parse of the optional Handlers field value. -/
def parseHandlersVal (f : JVal → Option HttpHandler) :
    Option JVal → Option (Option (List (String × HttpHandler)))
  | none => some none
  | some .null => some none
  | some (.obj kvs) => (parsePairs f kvs).map some
  | some _ => none

/-- serde parse of HttpHandler: must be an object; Proxy, Path and Text
are optional strings; every other field lands in unknown_fields. -/
def parseHttpHandler : JVal → Option HttpHandler
  | .obj fields =>
    match parseOptStrVal (lookupA fields "Proxy"), parseOptStrVal (lookupA fields "Path"),
        parseOptStrVal (lookupA fields "Text") with
    | some proxy, some path, some text =>
      some { proxy := proxy, path := path, text := text
             unknown_fields :=
               fields.filter (fun kv => !(["Proxy", "Path", "Text"].contains kv.1)) }
    | _, _, _ => none
  | _ => none

/-- serde parse of WebServerConfig: must be an object; Handlers is an
optional map of HttpHandler; every other field lands in
unknown_fields. -/
def parseWebServerConfig : JVal → Option WebServerConfig
  | .obj fields =>
    match parseHandlersVal parseHttpHandler (lookupA fields "Handlers") with
    | some handlers =>
      some { handlers := handlers
             unknown_fields := fields.filter (fun kv => !(kv.1 == "Handlers")) }
    | none => none
  | _ => none

/-- serde parse of the optional Web field value. -/
def parseWebVal : Option JVal → Option (Option (List (String × WebServerConfig)))
  | none => some none
  | some .null => some none
  | some (.obj kvs) => (parsePairs parseWebServerConfig kvs).map some
  | some _ => none

/-- serde parse of the optional AllowFunnel field value: a map with
strictly boolean values. -/
def parseAllowFunnelVal : Option JVal → Option (Option (List (String × Bool)))
  | none => some none
  | some .null => some none
  | some (.obj kvs) =>
    (parsePairs (fun v => match v with | .bool b => some b | _ => none) kvs).map some
  | some _ => none

/-- serde parse of the optional Foreground field value: a map with opaque
JSON values. -/
def parseForegroundVal : Option JVal → Option (Option (List (String × JVal)))
  | none => some none
  | some .null => some none
  | some (.obj kvs) => some (some kvs)
  | some _ => none

/-- serde parse of ServeConfig: must be an object; Tcp, Web, AllowFunnel
and Foreground are the recognized fields; every other field lands in
unknown_fields.  Unrecognized fields never make parsing fail. -/
def parseServeConfig : JVal → Option ServeConfig
  | .obj fields =>
    match parseTcpVal (lookupA fields "Tcp"), parseWebVal (lookupA fields "Web"),
        parseAllowFunnelVal (lookupA fields "AllowFunnel"),
        parseForegroundVal (lookupA fields "Foreground") with
    | some tcp, some web, some af, some fg =>
      some { tcp := tcp, web := web, allow_funnel := af, foreground := fg
             unknown_fields := fields.filter (fun kv => !knownServeKeys.contains kv.1) }
    | _, _, _, _ => none
  | _ => none

/-- A present optional field serializes to one binding, an absent one to
nothing (serde skip_serializing_if Option::is_none). -/
def optField (key : String) : Option JVal → List (String × JVal)
  | none => []
  | some v => [(key, v)]

/-- serde serialization of HttpHandler: declared fields first, then the
flattened unknown fields. -/
def serializeHttpHandler (h : HttpHandler) : JVal :=
  .obj (optField "Proxy" (h.proxy.map .str) ++ optField "Path" (h.path.map .str) ++
    optField "Text" (h.text.map .str) ++ h.unknown_fields)

/-- serde serialization of WebServerConfig. -/
def serializeWebServerConfig (w : WebServerConfig) : JVal :=
  .obj (optField "Handlers"
      (w.handlers.map (fun hs => .obj (hs.map (fun kv => (kv.1, serializeHttpHandler kv.2))))) ++
    w.unknown_fields)

/-- serde serialization of ServeConfig. -/
def serializeServeConfig (c : ServeConfig) : JVal :=
  .obj (optField "Tcp" (c.tcp.map (fun l => .obj (l.map (fun kv => (toString kv.1, kv.2))))) ++
    optField "Web"
      (c.web.map (fun l => .obj (l.map (fun kv => (kv.1, serializeWebServerConfig kv.2))))) ++
    optField "AllowFunnel"
      (c.allow_funnel.map (fun l => .obj (l.map (fun kv => (kv.1, JVal.bool kv.2))))) ++
    optField "Foreground" (c.foreground.map .obj) ++
    c.unknown_fields)

/-- The field list of a JSON object. -/
def objFields : JVal → List (String × JVal)
  | .obj fields => fields
  | _ => []

theorem lookupA_none_of_keys_ne {α : Type} (l : List (String × α)) (k : String)
    (hx : ∀ kv ∈ l, kv.1 ≠ k) : lookupA l k = none := by
  induction l with
  | nil => rfl
  | cons kv rest ih =>
    obtain ⟨k1, v1⟩ := kv
    have h1 : k1 ≠ k := hx (k1, v1) (List.mem_cons_self _ _)
    simp only [lookupA, if_neg h1]
    exact ih (fun kv' h' => hx kv' (List.mem_cons_of_mem _ h'))

theorem lookupA_append {α : Type} (l extra : List (String × α)) (k : String)
    (hx : ∀ kv ∈ extra, kv.1 ≠ k) : lookupA (l ++ extra) k = lookupA l k := by
  induction l with
  | nil => simpa [lookupA] using lookupA_none_of_keys_ne extra k hx
  | cons kv rest ih =>
    obtain ⟨k1, v1⟩ := kv
    by_cases h : k1 = k <;> simp [lookupA, h, ih]

theorem parsePairs_mem {β : Type} (f : JVal → Option β) :
    ∀ (l : List (String × JVal)) (l' : List (String × β)) (k : String) (v : JVal),
      parsePairs f l = some l' → (k, v) ∈ l → ∃ b, f v = some b ∧ (k, b) ∈ l' := by
  intro l
  induction l with
  | nil => intro l' k v h hm; cases hm
  | cons kv rest ih =>
    intro l' k v h hm
    obtain ⟨k1, v1⟩ := kv
    cases hf : f v1 with
    | none => simp [parsePairs, hf] at h
    | some b1 =>
      cases hr : parsePairs f rest with
      | none => simp [parsePairs, hf, hr] at h
      | some bs =>
        have hl' : (k1, b1) :: bs = l' := by simpa [parsePairs, hf, hr] using h
        rcases List.mem_cons.mp hm with hhead | htail
        · refine ⟨b1, ?_, ?_⟩
          · have hv : v = v1 := congrArg Prod.snd hhead
            rw [hv, hf]
          · have hk : k = k1 := congrArg Prod.fst hhead
            rw [← hl', hk]
            exact List.mem_cons_self _ _
        · obtain ⟨b, hb, hbm⟩ := ih bs k v hr htail
          exact ⟨b, hb, hl' ▸ List.mem_cons_of_mem _ hbm⟩

theorem parseServeConfig_obj_inv (fields : List (String × JVal)) (c : ServeConfig)
    (hparse : parseServeConfig (.obj fields) = some c) :
    parseTcpVal (lookupA fields "Tcp") = some c.tcp ∧
    parseWebVal (lookupA fields "Web") = some c.web ∧
    parseAllowFunnelVal (lookupA fields "AllowFunnel") = some c.allow_funnel ∧
    parseForegroundVal (lookupA fields "Foreground") = some c.foreground ∧
    c.unknown_fields = fields.filter (fun kv => !knownServeKeys.contains kv.1) := by
  simp only [parseServeConfig] at hparse
  cases h1 : parseTcpVal (lookupA fields "Tcp") with
  | none => rw [h1] at hparse; simp at hparse
  | some tcp =>
    cases h2 : parseWebVal (lookupA fields "Web") with
    | none => rw [h1, h2] at hparse; simp at hparse
    | some web =>
      cases h3 : parseAllowFunnelVal (lookupA fields "AllowFunnel") with
      | none => rw [h1, h2, h3] at hparse; simp at hparse
      | some af =>
        cases h4 : parseForegroundVal (lookupA fields "Foreground") with
        | none => rw [h1, h2, h3, h4] at hparse; simp at hparse
        | some fg =>
          rw [h1, h2, h3, h4] at hparse
          simp only [Option.some.injEq] at hparse
          rw [← hparse]
          exact ⟨rfl, rfl, rfl, rfl, rfl⟩

theorem parseWebServerConfig_obj_inv (fields : List (String × JVal)) (W : WebServerConfig)
    (hparse : parseWebServerConfig (.obj fields) = some W) :
    parseHandlersVal parseHttpHandler (lookupA fields "Handlers") = some W.handlers ∧
    W.unknown_fields = fields.filter (fun kv => !(kv.1 == "Handlers")) := by
  simp only [parseWebServerConfig] at hparse
  cases h1 : parseHandlersVal parseHttpHandler (lookupA fields "Handlers") with
  | none => rw [h1] at hparse; simp at hparse
  | some handlers =>
    rw [h1] at hparse
    simp only [Option.some.injEq] at hparse
    rw [← hparse]
    exact ⟨rfl, rfl⟩

theorem parseHttpHandler_obj_inv (fields : List (String × JVal)) (H : HttpHandler)
    (hparse : parseHttpHandler (.obj fields) = some H) :
    H.unknown_fields = fields.filter (fun kv => !(["Proxy", "Path", "Text"].contains kv.1)) := by
  simp only [parseHttpHandler] at hparse
  cases h1 : parseOptStrVal (lookupA fields "Proxy") with
  | none => rw [h1] at hparse; simp at hparse
  | some proxy =>
    cases h2 : parseOptStrVal (lookupA fields "Path") with
    | none => rw [h1, h2] at hparse; simp at hparse
    | some path =>
      cases h3 : parseOptStrVal (lookupA fields "Text") with
      | none => rw [h1, h2, h3] at hparse; simp at hparse
      | some text =>
        rw [h1, h2, h3] at hparse
        simp only [Option.some.injEq] at hparse
        rw [← hparse]

theorem parse_append_unknown (fields extra : List (String × JVal)) (c : ServeConfig)
    (hparse : parseServeConfig (.obj fields) = some c)
    (hx : ∀ kv ∈ extra, knownServeKeys.contains kv.1 = false) :
    parseServeConfig (.obj (fields ++ extra)) =
      some { c with unknown_fields :=
        (fields ++ extra).filter (fun kv => !knownServeKeys.contains kv.1) } := by
  obtain ⟨h1, h2, h3, h4, _⟩ := parseServeConfig_obj_inv fields c hparse
  have hne : ∀ (k : String), knownServeKeys.contains k = true → ∀ kv ∈ extra, kv.1 ≠ k := by
    intro k hk kv hkv heq
    have hfalse := hx kv hkv
    rw [heq, hk] at hfalse
    cases hfalse
  have ht := lookupA_append fields extra "Tcp" (hne "Tcp" rfl)
  have hw := lookupA_append fields extra "Web" (hne "Web" rfl)
  have ha := lookupA_append fields extra "AllowFunnel" (hne "AllowFunnel" rfl)
  have hf := lookupA_append fields extra "Foreground" (hne "Foreground" rfl)
  simp only [parseServeConfig, ht, hw, ha, hf, h1, h2, h3, h4]

theorem serialize_preserves_unknown_top (fields : List (String × JVal)) (c : ServeConfig)
    (kv : String × JVal) (hparse : parseServeConfig (.obj fields) = some c)
    (hm : kv ∈ fields) (hk : knownServeKeys.contains kv.1 = false) :
    kv ∈ objFields (serializeServeConfig c) := by
  obtain ⟨_, _, _, _, h5⟩ := parseServeConfig_obj_inv fields c hparse
  have hmem : kv ∈ c.unknown_fields := by
    rw [h5]
    exact List.mem_filter.mpr ⟨hm, by simpa using hk⟩
  simp only [serializeServeConfig, objFields]
  exact List.mem_append.mpr (Or.inr hmem)

theorem serialize_preserves_unknown_web (fields : List (String × JVal)) (W : WebServerConfig)
    (kv : String × JVal) (hparse : parseWebServerConfig (.obj fields) = some W)
    (hm : kv ∈ fields) (hk : (kv.1 == "Handlers") = false) :
    kv ∈ objFields (serializeWebServerConfig W) := by
  obtain ⟨_, h2⟩ := parseWebServerConfig_obj_inv fields W hparse
  have hmem : kv ∈ W.unknown_fields := by
    rw [h2]
    exact List.mem_filter.mpr ⟨hm, by simpa using hk⟩
  simp only [serializeWebServerConfig, objFields]
  exact List.mem_append.mpr (Or.inr hmem)

theorem serialize_preserves_unknown_handler (fields : List (String × JVal)) (H : HttpHandler)
    (kv : String × JVal) (hparse : parseHttpHandler (.obj fields) = some H)
    (hm : kv ∈ fields) (hk : (["Proxy", "Path", "Text"].contains kv.1) = false) :
    kv ∈ objFields (serializeHttpHandler H) := by
  have h5 := parseHttpHandler_obj_inv fields H hparse
  have hmem : kv ∈ H.unknown_fields := by
    rw [h5]
    exact List.mem_filter.mpr ⟨hm, by simpa using hk⟩
  simp only [serializeHttpHandler, objFields]
  exact List.mem_append.mpr (Or.inr hmem)

theorem lookupA_serialize_web (c : ServeConfig) (wl : List (String × WebServerConfig))
    (hw : c.web = some wl) :
    lookupA (objFields (serializeServeConfig c)) "Web" =
      some (.obj (wl.map (fun kv => (kv.1, serializeWebServerConfig kv.2)))) := by
  cases ht : c.tcp <;>
    simp [serializeServeConfig, objFields, optField, hw, ht, lookupA]

theorem serialize_web_entry (fields : List (String × JVal)) (c : ServeConfig)
    (wkvs : List (String × JVal)) (hp : String) (wv : JVal)
    (hparse : parseServeConfig (.obj fields) = some c)
    (hweb : lookupA fields "Web" = some (.obj wkvs))
    (hm : (hp, wv) ∈ wkvs) :
    ∃ W wl, parseWebServerConfig wv = some W ∧ c.web = some wl ∧
      lookupA (objFields (serializeServeConfig c)) "Web" =
        some (.obj (wl.map (fun kv2 => (kv2.1, serializeWebServerConfig kv2.2)))) ∧
      (hp, serializeWebServerConfig W) ∈
        wl.map (fun kv2 => (kv2.1, serializeWebServerConfig kv2.2)) := by
  obtain ⟨_, h2, _, _, _⟩ := parseServeConfig_obj_inv fields c hparse
  rw [hweb] at h2
  cases hpp : parsePairs parseWebServerConfig wkvs with
  | none => rw [parseWebVal, hpp] at h2; simp at h2
  | some wl =>
    rw [parseWebVal, hpp] at h2
    simp only [Option.map_some', Option.some.injEq] at h2
    obtain ⟨W, hW, hWm⟩ := parsePairs_mem parseWebServerConfig wkvs wl hp wv hpp hm
    refine ⟨W, wl, hW, h2.symm, lookupA_serialize_web c wl h2.symm, ?_⟩
    exact List.mem_map_of_mem _ hWm

theorem serialize_handler_entry (fields : List (String × JVal)) (W : WebServerConfig)
    (hkvs : List (String × JVal)) (p : String) (hv : JVal)
    (hparse : parseWebServerConfig (.obj fields) = some W)
    (hh : lookupA fields "Handlers" = some (.obj hkvs))
    (hm : (p, hv) ∈ hkvs) :
    ∃ H hl, parseHttpHandler hv = some H ∧ W.handlers = some hl ∧
      lookupA (objFields (serializeWebServerConfig W)) "Handlers" =
        some (.obj (hl.map (fun kv2 => (kv2.1, serializeHttpHandler kv2.2)))) ∧
      (p, serializeHttpHandler H) ∈
        hl.map (fun kv2 => (kv2.1, serializeHttpHandler kv2.2)) := by
  obtain ⟨h1, _⟩ := parseWebServerConfig_obj_inv fields W hparse
  rw [hh] at h1
  cases hpp : parsePairs parseHttpHandler hkvs with
  | none => rw [parseHandlersVal, hpp] at h1; simp at h1
  | some hl =>
    rw [parseHandlersVal, hpp] at h1
    simp only [Option.map_some', Option.some.injEq] at h1
    obtain ⟨H, hH, hHm⟩ := parsePairs_mem parseHttpHandler hkvs hl p hv hpp hm
    refine ⟨H, hl, hH, h1.symm, ?_, List.mem_map_of_mem _ hHm⟩
    simp [serializeWebServerConfig, objFields, optField, h1.symm, lookupA]

/-- Claim C3: parsing a JSON document into the configuration model never
fails because of unrecognized fields (appending any unrecognized fields to
a parseable object keeps it parseable, with only the unknown-field bag
growing), and re-serializing the parsed value reproduces every
originally-unrecognized field and its value, at the top level and nested
inside each Web entry and each handler entry. -/
theorem c3_round_trip :
    (∀ (fields extra : List (String × JVal)) (c : ServeConfig),
      parseServeConfig (.obj fields) = some c →
      (∀ kv ∈ extra, knownServeKeys.contains kv.1 = false) →
      parseServeConfig (.obj (fields ++ extra)) =
        some { c with unknown_fields :=
          (fields ++ extra).filter (fun kv => !knownServeKeys.contains kv.1) }) ∧
    (∀ (fields : List (String × JVal)) (c : ServeConfig) (kv : String × JVal),
      parseServeConfig (.obj fields) = some c → kv ∈ fields →
      knownServeKeys.contains kv.1 = false →
      kv ∈ objFields (serializeServeConfig c)) ∧
    (∀ (fields : List (String × JVal)) (W : WebServerConfig) (kv : String × JVal),
      parseWebServerConfig (.obj fields) = some W → kv ∈ fields →
      (kv.1 == "Handlers") = false →
      kv ∈ objFields (serializeWebServerConfig W)) ∧
    (∀ (fields : List (String × JVal)) (H : HttpHandler) (kv : String × JVal),
      parseHttpHandler (.obj fields) = some H → kv ∈ fields →
      (["Proxy", "Path", "Text"].contains kv.1) = false →
      kv ∈ objFields (serializeHttpHandler H)) ∧
    (∀ (fields : List (String × JVal)) (c : ServeConfig)
      (wkvs : List (String × JVal)) (hp : String) (wv : JVal),
      parseServeConfig (.obj fields) = some c →
      lookupA fields "Web" = some (.obj wkvs) → (hp, wv) ∈ wkvs →
      ∃ W wl, parseWebServerConfig wv = some W ∧ c.web = some wl ∧
        lookupA (objFields (serializeServeConfig c)) "Web" =
          some (.obj (wl.map (fun kv2 => (kv2.1, serializeWebServerConfig kv2.2)))) ∧
        (hp, serializeWebServerConfig W) ∈
          wl.map (fun kv2 => (kv2.1, serializeWebServerConfig kv2.2))) ∧
    (∀ (fields : List (String × JVal)) (W : WebServerConfig)
      (hkvs : List (String × JVal)) (p : String) (hv : JVal),
      parseWebServerConfig (.obj fields) = some W →
      lookupA fields "Handlers" = some (.obj hkvs) → (p, hv) ∈ hkvs →
      ∃ H hl, parseHttpHandler hv = some H ∧ W.handlers = some hl ∧
        lookupA (objFields (serializeWebServerConfig W)) "Handlers" =
          some (.obj (hl.map (fun kv2 => (kv2.1, serializeHttpHandler kv2.2)))) ∧
        (p, serializeHttpHandler H) ∈
          hl.map (fun kv2 => (kv2.1, serializeHttpHandler kv2.2))) :=
  ⟨parse_append_unknown, serialize_preserves_unknown_top, serialize_preserves_unknown_web,
    serialize_preserves_unknown_handler, serialize_web_entry, serialize_handler_entry⟩

/-- Concrete configuration document with unrecognized fields at every
level, for the C3 witness. -/
def c3fields : List (String × JVal) :=
  [("Web", .obj [("example.com:443",
      .obj [("Handlers", .obj [("/x",
          .obj [("Proxy", .str "http://127.0.0.1:8080"), ("HExtra", .num 5)])]),
        ("WExtra", .str "w")])]),
   ("TopExtra", .num 42)]

/-- The parse of c3fields, written out. -/
def c3parsed : ServeConfig :=
  { tcp := none
    web := some [("example.com:443",
      { handlers := some [("/x",
          { proxy := some "http://127.0.0.1:8080", path := none, text := none
            unknown_fields := [("HExtra", .num 5)] })]
        unknown_fields := [("WExtra", .str "w")] })]
    allow_funnel := none
    foreground := none
    unknown_fields := [("TopExtra", .num 42)] }

/-- c3fields with one more unrecognized top-level field appended. -/
def c3extended : List (String × JVal) := c3fields ++ [("Extra2", JVal.null)]

/-- The unknown-field bag of the extended document. -/
def c3unknown : List (String × JVal) :=
  c3extended.filter (fun kv => !knownServeKeys.contains kv.1)

theorem c3_witness :
    (parseServeConfig (.obj c3extended) =
      some { c3parsed with unknown_fields := c3unknown }) ∧
    (("TopExtra", JVal.num 42) ∈ objFields (serializeServeConfig c3parsed)) :=
  ⟨c3_round_trip.1 c3fields [("Extra2", JVal.null)] c3parsed rfl
      (fun kv hkv => by
        have hkv' : kv = ("Extra2", JVal.null) := by simpa using hkv
        rw [hkv']
        rfl),
    c3_round_trip.2.1 c3fields c3parsed ("TopExtra", JVal.num 42) rfl
      (by simp [c3fields]) rfl⟩

theorem lookupA_insertA_self {α : Type} (l : List (String × α)) (k : String) (v : α) :
    lookupA (insertA l k v) k = some v := by
  induction l with
  | nil => simp [insertA, lookupA]
  | cons kv rest ih =>
    obtain ⟨k1, v1⟩ := kv
    by_cases h : k1 = k
    · simp [insertA, lookupA, h]
    · simp [insertA, lookupA, h, ih]

theorem lookupA_insertA_ne {α : Type} (l : List (String × α)) (k k2 : String) (v : α)
    (hne : k2 ≠ k) : lookupA (insertA l k v) k2 = lookupA l k2 := by
  induction l with
  | nil => simp [insertA, lookupA, Ne.symm hne]
  | cons kv rest ih =>
    obtain ⟨k1, v1⟩ := kv
    by_cases h : k1 = k
    · subst h
      simp [insertA, lookupA, Ne.symm hne]
    · by_cases h2 : k1 = k2 <;> simp [insertA, lookupA, h, h2, ih, hne]

/-- The session-document mutation inside apply_patch (src/core/patch.rs):
ensure the web map and the host:port entry and its handlers map exist,
insert or overwrite the proxy handler at the path, and set
allow_funnel[host_port] = true only when funnel is enabled. -/
def applySession (sc : ServeConfig) (host_port path target : String)
    (funnel_enabled : Bool) : ServeConfig :=
  let web := sc.web.getD []
  let web_config := (lookupA web host_port).getD WebServerConfig.new
  let handlers := web_config.handlers.getD []
  let handlers2 := insertA handlers path (HttpHandler.new_proxy target)
  let web2 := insertA web host_port { web_config with handlers := some handlers2 }
  let sc2 := { sc with web := some web2 }
  if funnel_enabled then
    { sc2 with allow_funnel := some (insertA (sc.allow_funnel.getD []) host_port true) }
  else sc2

/-- apply_patch (src/core/patch.rs): ensure the foreground map exists,
take or create the session entry (a serialized empty configuration when
absent), round-trip that JSON value through the configuration model,
mutate it with applySession, and store it back.  The error string stands
for FunnelError::Other on a malformed session value. -/
def apply_patch (config : ServeConfig) (session_id host_port path target : String)
    (funnel_enabled : Bool) : Except String ServeConfig :=
  let foreground := config.foreground.getD []
  let session_value := (lookupA foreground session_id).getD
    (serializeServeConfig ServeConfig.new)
  match parseServeConfig session_value with
  | none => .error "Failed to parse session config"
  | some session_config =>
    .ok { config with foreground := some (insertA foreground session_id
      (serializeServeConfig
        (applySession session_config host_port path target funnel_enabled))) }

/-- remove_patch (src/core/patch.rs): remove the handler if present,
report whether a removal happened, prune now-empty handler and web
containers, and never fail on a missing session, host or path. -/
def remove_patch (config : ServeConfig) (session_id host_port path : String) :
    Except String (Bool × ServeConfig) :=
  match config.foreground with
  | none => .ok (false, config)
  | some fg =>
    match lookupA fg session_id with
    | none => .ok (false, config)
    | some session_value =>
      match parseServeConfig session_value with
      | none => .error "Failed to parse session config"
      | some sc =>
        match sc.web with
        | none => .ok (false, config)
        | some web =>
          match lookupA web host_port with
          | none => .ok (false, config)
          | some wc =>
            match wc.handlers with
            | none => .ok (false, config)
            | some handlers =>
              let removed := (lookupA handlers path).isSome
              let handlers2 := eraseA handlers path
              let newHandlers := if handlers2.isEmpty then none else some handlers2
              let wc2 : WebServerConfig := { wc with handlers := newHandlers }
              let web2 :=
                if newHandlers.isNone && wc.unknown_fields.isEmpty then eraseA web host_port
                else insertA web host_port wc2
              let newWeb := if web2.isEmpty then none else some web2
              .ok (removed, { config with foreground := some (insertA fg session_id
                  (serializeServeConfig { sc with web := newWeb })) })

/-- The handler map of a session document at a host:port, empty when any
container on the way is absent. -/
def handlersAt (sc : ServeConfig) (host_port : String) : List (String × HttpHandler) :=
  ((lookupA (sc.web.getD []) host_port).getD WebServerConfig.new).handlers.getD []

/-- Claim C6: apply_patch ensures foreground[sessionId] and its
web[hostPort] exist, inserts or overwrites a proxy handler at the path,
sets allowFunnel[hostPort] = true in the nested session document only when
funnelEnabled is true, and leaves everything else unchanged: the outer
document's tcp, web, allowFunnel and unrecognized fields (the result
updates only foreground), every other foreground session entry, and every
other path and host:port and the unknown fields inside the same session
document. -/
theorem c6_apply_patch_frame (config : ServeConfig)
    (session_id host_port path target : String) (funnel_enabled : Bool) (S : ServeConfig)
    (hS : parseServeConfig ((lookupA (config.foreground.getD []) session_id).getD
        (serializeServeConfig ServeConfig.new)) = some S) :
    (apply_patch config session_id host_port path target funnel_enabled =
      .ok { config with foreground := some (insertA (config.foreground.getD []) session_id
        (serializeServeConfig (applySession S host_port path target funnel_enabled))) }) ∧
    (∀ sid2, sid2 ≠ session_id →
      lookupA (insertA (config.foreground.getD []) session_id
          (serializeServeConfig (applySession S host_port path target funnel_enabled))) sid2 =
        lookupA (config.foreground.getD []) sid2) ∧
    ((applySession S host_port path target funnel_enabled).tcp = S.tcp ∧
      (applySession S host_port path target funnel_enabled).foreground = S.foreground ∧
      (applySession S host_port path target funnel_enabled).unknown_fields =
        S.unknown_fields) ∧
    (lookupA (handlersAt (applySession S host_port path target funnel_enabled) host_port)
      path = some (HttpHandler.new_proxy target)) ∧
    (∀ p2, p2 ≠ path →
      lookupA (handlersAt (applySession S host_port path target funnel_enabled) host_port)
        p2 = lookupA (handlersAt S host_port) p2) ∧
    (∀ hp2, hp2 ≠ host_port →
      lookupA ((applySession S host_port path target funnel_enabled).web.getD []) hp2 =
        lookupA (S.web.getD []) hp2) ∧
    (((lookupA ((applySession S host_port path target funnel_enabled).web.getD [])
        host_port).getD WebServerConfig.new).unknown_fields =
      ((lookupA (S.web.getD []) host_port).getD WebServerConfig.new).unknown_fields) ∧
    (funnel_enabled = false →
      (applySession S host_port path target funnel_enabled).allow_funnel = S.allow_funnel) ∧
    (funnel_enabled = true →
      lookupA ((applySession S host_port path target funnel_enabled).allow_funnel.getD [])
        host_port = some true ∧
      ∀ hp2, hp2 ≠ host_port →
        lookupA ((applySession S host_port path target funnel_enabled).allow_funnel.getD [])
          hp2 = lookupA (S.allow_funnel.getD []) hp2) := by
  refine ⟨?_, ?_, ?_, ?_, ?_, ?_, ?_, ?_, ?_⟩
  · simp only [apply_patch, hS]
  · intro sid2 hne
    exact lookupA_insertA_ne _ _ _ _ hne
  · cases funnel_enabled <;> simp [applySession]
  · cases funnel_enabled <;>
      simp [applySession, handlersAt, lookupA_insertA_self]
  · intro p2 hne
    cases funnel_enabled <;>
      simp [applySession, handlersAt, lookupA_insertA_self, lookupA_insertA_ne _ _ _ _ hne]
  · intro hp2 hne
    cases funnel_enabled <;>
      simp [applySession, lookupA_insertA_ne _ _ _ _ hne]
  · cases funnel_enabled <;>
      simp [applySession, lookupA_insertA_self]
  · intro hfe
    subst hfe
    simp [applySession]
  · intro hfe
    subst hfe
    refine ⟨?_, ?_⟩
    · simp [applySession, lookupA_insertA_self]
    · intro hp2 hne
      simp [applySession, lookupA_insertA_ne _ _ _ _ hne]

theorem c6_witness :
    (parseServeConfig ((lookupA (ServeConfig.new.foreground.getD []) "s").getD
        (serializeServeConfig ServeConfig.new)) = some ServeConfig.new) ∧
    (apply_patch ServeConfig.new "s" "h:443" "/x" "t" true =
      .ok { ServeConfig.new with foreground := some (insertA
        (ServeConfig.new.foreground.getD []) "s"
        (serializeServeConfig (applySession ServeConfig.new "h:443" "/x" "t" true))) }) ∧
    (lookupA (handlersAt (applySession ServeConfig.new "h:443" "/x" "t" true) "h:443") "/x" =
      some (HttpHandler.new_proxy "t")) :=
  ⟨rfl,
    (c6_apply_patch_frame ServeConfig.new "s" "h:443" "/x" "t" true ServeConfig.new rfl).1,
    (c6_apply_patch_frame ServeConfig.new "s" "h:443" "/x" "t" true
      ServeConfig.new rfl).2.2.2.1⟩

/-- The configuration apply_patch produces from the empty configuration. -/
def appliedEmpty (sid hp p t : String) (fe : Bool) : ServeConfig :=
  { ServeConfig.new with
    foreground := some [(sid, serializeServeConfig (applySession ServeConfig.new hp p t fe))] }

/-- The session document left after the paired removal: the web container
is pruned away entirely; only the funnel flag (when it was set) remains. -/
def removedSession (hp : String) (fe : Bool) : ServeConfig :=
  { tcp := none, web := none
    allow_funnel := if fe then some [(hp, true)] else none
    foreground := none, unknown_fields := [] }

/-- The whole configuration after the paired apply and remove. -/
def removedConfig (sid hp : String) (fe : Bool) : ServeConfig :=
  { ServeConfig.new with
    foreground := some [(sid, serializeServeConfig (removedSession hp fe))] }

/-- Claim C7: starting from the empty configuration, apply_patch followed
by remove_patch with the identical (sessionId, hostPort, path) returns
true from remove_patch and leaves no empty web or handlers containers for
that session (the now-empty handler map and host:port entry are pruned,
so the re-parsed session document has web = none); and remove_patch on a
configuration missing the session, host or path never fails and returns
false. -/
theorem c7_apply_then_remove :
    (∀ (sid hp p t : String) (fe : Bool),
      apply_patch ServeConfig.new sid hp p t fe = .ok (appliedEmpty sid hp p t fe) ∧
      remove_patch (appliedEmpty sid hp p t fe) sid hp p =
        .ok (true, removedConfig sid hp fe) ∧
      parseServeConfig (serializeServeConfig (removedSession hp fe)) =
        some (removedSession hp fe) ∧
      (removedSession hp fe).web = none ∧
      (removedSession hp fe).get_handlers hp = none) ∧
    (∀ (config : ServeConfig) (sid hp p : String),
      (config.foreground = none → remove_patch config sid hp p = .ok (false, config)) ∧
      (∀ fg, config.foreground = some fg → lookupA fg sid = none →
        remove_patch config sid hp p = .ok (false, config)) ∧
      (∀ fg v S, config.foreground = some fg → lookupA fg sid = some v →
        parseServeConfig v = some S → S.web = none →
        remove_patch config sid hp p = .ok (false, config)) ∧
      (∀ fg v S web, config.foreground = some fg → lookupA fg sid = some v →
        parseServeConfig v = some S → S.web = some web → lookupA web hp = none →
        remove_patch config sid hp p = .ok (false, config)) ∧
      (∀ fg v S web wc, config.foreground = some fg → lookupA fg sid = some v →
        parseServeConfig v = some S → S.web = some web → lookupA web hp = some wc →
        wc.handlers = none →
        remove_patch config sid hp p = .ok (false, config)) ∧
      (∀ fg v S web wc handlers, config.foreground = some fg → lookupA fg sid = some v →
        parseServeConfig v = some S → S.web = some web → lookupA web hp = some wc →
        wc.handlers = some handlers → lookupA handlers p = none →
        (remove_patch config sid hp p).toOption.map Prod.fst = some false)) := by
  constructor
  · intro sid hp p t fe
    refine ⟨?_, ?_, ?_, ?_, ?_⟩
    · cases fe <;>
        simp [apply_patch, appliedEmpty, applySession, parseServeConfig, serializeServeConfig,
          optField, lookupA, insertA, knownServeKeys, ServeConfig.new, WebServerConfig.new,
          parseTcpVal, parseWebVal, parseAllowFunnelVal, parseForegroundVal]
    · cases fe <;>
        simp [remove_patch, appliedEmpty, applySession, removedSession, removedConfig,
          parseServeConfig,
          serializeServeConfig, serializeWebServerConfig, serializeHttpHandler, optField,
          lookupA, insertA, eraseA, knownServeKeys, ServeConfig.new, WebServerConfig.new,
          HttpHandler.new_proxy, parseTcpVal, parseWebVal, parseAllowFunnelVal,
          parseForegroundVal, parseWebServerConfig, parseHandlersVal, parseHttpHandler,
          parseOptStrVal, parsePairs]
    · cases fe <;>
        simp [removedSession, parseServeConfig, serializeServeConfig, optField, lookupA,
          knownServeKeys, parseTcpVal, parseWebVal, parseAllowFunnelVal,
          parseForegroundVal, parsePairs]
    · cases fe <;> simp [removedSession]
    · cases fe <;> simp [removedSession, ServeConfig.get_handlers]
  · intro config sid hp p
    refine ⟨?_, ?_, ?_, ?_, ?_, ?_⟩
    · intro hfg
      simp [remove_patch, hfg]
    · intro fg hfg hlk
      simp [remove_patch, hfg, hlk]
    · intro fg v S hfg hlk hparse hweb
      simp [remove_patch, hfg, hlk, hparse, hweb]
    · intro fg v S web hfg hlk hparse hweb hhp
      simp [remove_patch, hfg, hlk, hparse, hweb, hhp]
    · intro fg v S web wc hfg hlk hparse hweb hhp hh
      simp [remove_patch, hfg, hlk, hparse, hweb, hhp, hh]
    · intro fg v S web wc handlers hfg hlk hparse hweb hhp hh hlp
      simp [remove_patch, hfg, hlk, hparse, hweb, hhp, hh, hlp]
      exact ⟨_, rfl⟩

theorem c7_witness :
    (apply_patch ServeConfig.new "s" "h:443" "/x" "t" true =
        .ok (appliedEmpty "s" "h:443" "/x" "t" true) ∧
      remove_patch (appliedEmpty "s" "h:443" "/x" "t" true) "s" "h:443" "/x" =
        .ok (true, removedConfig "s" "h:443" true) ∧
      parseServeConfig (serializeServeConfig (removedSession "h:443" true)) =
        some (removedSession "h:443" true) ∧
      (removedSession "h:443" true).web = none ∧
      (removedSession "h:443" true).get_handlers "h:443" = none) ∧
    (ServeConfig.new.foreground = none ∧
      remove_patch ServeConfig.new "s" "h:443" "/x" = .ok (false, ServeConfig.new)) :=
  ⟨c7_apply_then_remove.1 "s" "h:443" "/x" "t" true,
    ⟨rfl, (c7_apply_then_remove.2 ServeConfig.new "s" "h:443" "/x").1 rfl⟩⟩

/-- A serve-config fetch as the orchestrator sees it: the optional entity
tag and the body (null when the daemon has no configuration). -/
structure FetchResult where
  etag : Option String
  config : JVal

/-- Result of one set_serve_config write: success, an HTTP status error
carrying the code, or any other transport error. -/
inductive WriteResult where
  | ok
  | httpStatus (status : Nat)
  | transportErr
deriving DecidableEq

/-- Terminal outcomes of the commit loop, each carrying the number of
fetch-and-patch cycles performed. -/
inductive CommitOutcome where
  | success (fetches : Nat)
  | versionTooOld (fetches : Nat)
  | conflictStop (fetches : Nat)
  | parseFailed (fetches : Nat)
  | patchFailed (fetches : Nat)
  | changedConcurrently (fetches : Nat)
  | writeFailed (fetches : Nat)
deriving DecidableEq

/-- value_to_config (src/backend/localapi/mod.rs): a null body parses to
the empty configuration. -/
def value_to_config : JVal → Option ServeConfig
  | .null => some ServeConfig.new
  | v => parseServeConfig v

/-- How the per-session foreground conflict scan can stop the attempt. -/
inductive FgStop where
  | parseFail
  | conflictFail
deriving DecidableEq

/-- The conflict scan over every active session's nested configuration
for the same host:port (the foreground for-loop in
LocalApiBackend::apply); with force set, conflicts are ignored. -/
def foregroundScan (hp np nt : String) (funnel force : Bool) :
    List (String × JVal) → Option FgStop
  | [] => none
  | (_, v) :: rest =>
    match value_to_config v with
    | none => some .parseFail
    | some sc =>
      match detect_conflicts sc hp np nt funnel with
      | .ok none => foregroundScan hp np nt funnel force rest
      | .ok (some _) =>
        if force then foregroundScan hp np nt funnel force rest
        else some .conflictFail
      | .error _ =>
        if force then foregroundScan hp np nt funnel force rest
        else some .conflictFail

/-- The conflict-check-and-commit loop of LocalApiBackend::apply
(src/backend/localapi/mod.rs).  `fetches i` is the i-th serve-config
fetch, giving the fresh concurrency token and configuration of that
attempt; `writes i etag` is the daemon's answer to the i-th write, which
the loop sends with that attempt's token as its if-match precondition.
`idx + 1` is the Rust loop's 1-based attempt counter.  The Rust loop is
syntactically unbounded but retries only while the attempt counter is
below 3, so at most three iterations ever run; `fuel` makes that bound
structural, and from the public entry (fuel 3) the attempt >= 3 check
fires before fuel can run out. -/
def runCommitLoop (fetches : Nat → FetchResult) (writes : Nat → String → WriteResult)
    (session_id hp np nt : String) (funnel force : Bool) :
    Nat → Nat → CommitOutcome
  | idx, 0 => .changedConcurrently idx
  | idx, fuel + 1 =>
    match (fetches idx).etag with
    | none => .versionTooOld (idx + 1)
    | some etag =>
      match value_to_config (fetches idx).config with
      | none => .parseFailed (idx + 1)
      | some config =>
        let topConflict :=
          match detect_conflicts config hp np nt funnel with
          | .error _ => !force
          | .ok _ => false
        if topConflict then .conflictStop (idx + 1)
        else
          match foregroundScan hp np nt funnel force (config.foreground.getD []) with
          | some .parseFail => .parseFailed (idx + 1)
          | some .conflictFail => .conflictStop (idx + 1)
          | none =>
            match apply_patch config session_id hp np nt funnel with
            | .error _ => .patchFailed (idx + 1)
            | .ok _ =>
              match writes idx etag with
              | .ok => .success (idx + 1)
              | .httpStatus s =>
                if s = 412 || s = 409 then
                  if idx + 1 ≥ 3 then .changedConcurrently (idx + 1)
                  else runCommitLoop fetches writes session_id hp np nt funnel force
                    (idx + 1) fuel
                else .writeFailed (idx + 1)
              | .transportErr => .writeFailed (idx + 1)

/-- The commit loop from its entry point: first attempt, bound of 3. -/
def applyCommit (fetches : Nat → FetchResult) (writes : Nat → String → WriteResult)
    (session_id hp np nt : String) (funnel force : Bool) : CommitOutcome :=
  runCommitLoop fetches writes session_id hp np nt funnel force 0 3

/-- Claim C4: each attempt of the commit loop re-fetches the
configuration with a fresh concurrency token and sends the write with
that attempt's token as a precondition (the write oracle is only ever
consulted at that token); a precondition-failed (412) or conflict (409)
write status retries the whole iteration; writes failing the precondition
on the first two attempts and succeeding on the third yield overall
success after exactly 3 fetch-and-patch cycles; and writes failing the
precondition on every attempt stop the loop after exactly 3 attempts with
the fatal changed-concurrently outcome — no fourth fetch happens. -/
theorem c4_commit_loop (fetches : Nat → FetchResult)
    (writes writes2 : Nat → String → WriteResult) (etags : Nat → String)
    (session_id hp np nt : String) (funnel force : Bool) (s0 s1 : Nat)
    (hf : ∀ i, i < 3 → fetches i = { etag := some (etags i), config := JVal.null })
    (hs0 : s0 = 412 ∨ s0 = 409) (hs1 : s1 = 412 ∨ s1 = 409)
    (hw0 : writes 0 (etags 0) = .httpStatus s0)
    (hw1 : writes 1 (etags 1) = .httpStatus s1)
    (hw2 : writes 2 (etags 2) = .ok)
    (hall : ∀ i, i < 3 → ∃ s, (s = 412 ∨ s = 409) ∧ writes2 i (etags i) = .httpStatus s) :
    applyCommit fetches writes session_id hp np nt funnel force = .success 3 ∧
    applyCommit fetches writes2 session_id hp np nt funnel force =
      .changedConcurrently 3 := by
  have hf0 := hf 0 (by omega)
  have hf1 := hf 1 (by omega)
  have hf2 := hf 2 (by omega)
  constructor
  · rcases hs0 with h0 | h0 <;> rcases hs1 with h1 | h1 <;> subst h0 <;> subst h1 <;>
      simp [applyCommit, runCommitLoop, hf0, hf1, hf2, hw0, hw1, hw2, value_to_config,
        detect_conflicts, ServeConfig.get_handlers, ServeConfig.new, apply_patch,
        foregroundScan, parseServeConfig, serializeServeConfig, optField, lookupA,
        knownServeKeys, parseTcpVal, parseWebVal, parseAllowFunnelVal, parseForegroundVal]
  · obtain ⟨t0, ht0, hv0⟩ := hall 0 (by omega)
    obtain ⟨t1, ht1, hv1⟩ := hall 1 (by omega)
    obtain ⟨t2, ht2, hv2⟩ := hall 2 (by omega)
    rcases ht0 with h0 | h0 <;> rcases ht1 with h1 | h1 <;> rcases ht2 with h2 | h2 <;>
      subst h0 <;> subst h1 <;> subst h2 <;>
      simp [applyCommit, runCommitLoop, hf0, hf1, hf2, hv0, hv1, hv2, value_to_config,
        detect_conflicts, ServeConfig.get_handlers, ServeConfig.new, apply_patch,
        foregroundScan, parseServeConfig, serializeServeConfig, optField, lookupA,
        knownServeKeys, parseTcpVal, parseWebVal, parseAllowFunnelVal, parseForegroundVal]

theorem c4_witness :
    applyCommit (fun _ => { etag := some "e", config := JVal.null })
      (fun i _ => if i ≤ 1 then WriteResult.httpStatus 412 else .ok)
      "s" "h:443" "/x" "t" true false = .success 3 ∧
    applyCommit (fun _ => { etag := some "e", config := JVal.null })
      (fun _ _ => WriteResult.httpStatus 412)
      "s" "h:443" "/x" "t" true false = .changedConcurrently 3 :=
  c4_commit_loop (fun _ => { etag := some "e", config := JVal.null })
    (fun i _ => if i ≤ 1 then WriteResult.httpStatus 412 else .ok)
    (fun _ _ => WriteResult.httpStatus 412) (fun _ => "e")
    "s" "h:443" "/x" "t" true false 412 412
    (fun _ _ => rfl) (Or.inl rfl) (Or.inl rfl) rfl rfl rfl
    (fun _ _ => ⟨412, Or.inl rfl, rfl⟩)

/-- A LocalAPI HTTP response as the protocol client sees it: header
bindings (lower-case names, as hyper normalizes them) and the JSON body
(null for an empty body). -/
structure HttpResponseM where
  headers : List (String × String)
  body : JVal

/-- ServeConfigResponse (src/backend/localapi/client.rs). -/
structure ServeConfigResponse where
  etag : Option String
  config : JVal

/-- get_serve_config (src/backend/localapi/client.rs): the concurrency
token is the response's entity-tag header, the configuration is the
parsed body. -/
def get_serve_config (resp : HttpResponseM) : ServeConfigResponse :=
  { etag := lookupA resp.headers "etag", config := resp.body }

/-- Claim C9: get_serve_config returns the concurrency token taken from
the response's entity-tag header together with the parsed configuration,
and when the entity tag is absent the apply flow stops on the first
attempt with the distinct version-too-old ("daemon too old") outcome,
which is a different error kind from the generic write, patch and
conflict outcomes. -/
theorem c9_etag_token (resp : HttpResponseM) (fetches : Nat → FetchResult)
    (writes : Nat → String → WriteResult) (session_id hp np nt : String)
    (funnel force : Bool) (hnone : (fetches 0).etag = none) :
    (get_serve_config resp).etag = lookupA resp.headers "etag" ∧
    (get_serve_config resp).config = resp.body ∧
    applyCommit fetches writes session_id hp np nt funnel force = .versionTooOld 1 ∧
    (∀ n m : Nat, CommitOutcome.versionTooOld n ≠ CommitOutcome.writeFailed m) ∧
    (∀ n m : Nat, CommitOutcome.versionTooOld n ≠ CommitOutcome.patchFailed m) ∧
    (∀ n m : Nat, CommitOutcome.versionTooOld n ≠ CommitOutcome.conflictStop m) := by
  refine ⟨rfl, rfl, ?_, ?_, ?_, ?_⟩
  · simp [applyCommit, runCommitLoop, hnone]
  · intro n m
    simp
  · intro n m
    simp
  · intro n m
    simp

theorem c9_witness :
    (get_serve_config { headers := [("etag", "abc")], body := JVal.null }).etag =
      lookupA [("etag", "abc")] "etag" ∧
    applyCommit (fun _ => { etag := none, config := JVal.null })
      (fun _ _ => WriteResult.ok) "s" "h:443" "/x" "t" true false = .versionTooOld 1 :=
  ⟨(c9_etag_token { headers := [("etag", "abc")], body := JVal.null }
      (fun _ => { etag := none, config := JVal.null }) (fun _ _ => WriteResult.ok)
      "s" "h:443" "/x" "t" true false rfl).1,
    (c9_etag_token { headers := [("etag", "abc")], body := JVal.null }
      (fun _ => { etag := none, config := JVal.null }) (fun _ _ => WriteResult.ok)
      "s" "h:443" "/x" "t" true false rfl).2.2.1⟩
